import Mathlib

/-!
Shallow embedding of the issue-parsing core of the mmm-testrunner repository
(src/parse.py).  Python objects become Lean structures; the CPython `set`
built on `__hash__`/`__eq__` is modelled as a list together with the
probing discipline `x in s  iff  some stored y has equal hash and compares
equal to x`.  Python's tuple hash is modelled collision-free: two issues
hash alike exactly when the hashed tuples `(file, category.name, text,
index, custom_hash)` agree componentwise.  Fallible Python code (raising
exceptions) returns `Except PyErr`.
-/

/-- Exception kinds raised by the embedded code (`parse.py` raises plain
`Exception` for a bad category; `int()` raises `ValueError`/`TypeError`;
dict subscripts raise `KeyError`; list subscripts raise `IndexError`). -/
inductive PyErr where
  | exception
  | valueError
  | typeError
  | keyError
  | indexError
deriving DecidableEq

/-- `class Categories(Enum)` from parse.py (UNKNOWN/STYLE/ERROR/SECURITY). -/
inductive Categories where
  | UNKNOWN
  | STYLE
  | ERROR
  | SECURITY
deriving DecidableEq

/-- `Categories.name` of the Python enum member, used by `Issue.__hash__`. -/
def Categories.name : Categories → String
  | .UNKNOWN => "UNKNOWN"
  | .STYLE => "STYLE"
  | .ERROR => "ERROR"
  | .SECURITY => "SECURITY"

/-- The `Issue` object of parse.py: fields `_file`, `_line`, `_category`,
`_text`, `index` (public, starts at 0) and `_hash` (exposed as the
`custom_hash` property). -/
structure Issue where
  file : String
  line : Int
  category : Categories
  text : String
  index : Nat
  custom_hash : String
deriving DecidableEq

/-- `Issue.__eq__`, translated verbatim: when both custom hashes are
truthy (non-empty strings) it compares them; otherwise it compares
`file`, `category`, and — exactly as the source line 96 is written —
`self.text == self.text` (the text of the left operand against itself).
The `index` field is not consulted at all. -/
def Issue.pyEq (self issue : Issue) : Bool :=
  if self.custom_hash ≠ "" ∧ issue.custom_hash ≠ "" then
    self.custom_hash == issue.custom_hash
  else
    self.file == issue.file && self.category == issue.category
      && self.text == self.text

/-- Hash agreement for `Issue.__hash__ = hash((file, category.name, text,
index, custom_hash))`: the collision-free model equates hashes exactly
when the hashed tuples agree componentwise. -/
def pyHashEq (a b : Issue) : Bool :=
  a.file == b.file && a.category.name == b.category.name
    && a.text == b.text && a.index == b.index
    && a.custom_hash == b.custom_hash

/-- CPython set membership: `x in s` holds iff some stored member has an
equal hash and compares equal to `x` (`__eq__`); entries with a different
hash are never compared. -/
def pyMem (x : Issue) (s : List Issue) : Bool :=
  s.any (fun y => pyHashEq y x && Issue.pyEq y x)

/-- CPython `set.add`: a no-op when an equal (hash and `__eq__`) member is
already present, otherwise the element is stored. -/
def pySetAdd (s : List Issue) (x : Issue) : List Issue :=
  if pyMem x s then s else s ++ [x]

/-- CPython set difference `a - b`: the members of `a` that are not `in`
`b` (under hash-and-eq membership). -/
def pySetDiff (a b : List Issue) : List Issue :=
  a.filter (fun x => !(pyMem x b))

/-- Python dict lookup `m[k]`/`k in m` over the `_issues` mapping,
modelled as an association list. -/
def lookupRev : List (String × List Issue) → String → Option (List Issue)
  | [], _ => Option.none
  | (k, v) :: rest, rev => if k == rev then some v else lookupRev rest rev

/-- Python dict update `m[k] = v` over the `_issues` mapping. -/
def setRev : List (String × List Issue) → String → List Issue →
    List (String × List Issue)
  | [], rev, v => [(rev, v)]
  | (k, w) :: rest, rev, v =>
    if k == rev then (rev, v) :: rest else (k, w) :: setRev rest rev v

/-- The mutable state of one `Parser` instance: `_issues` (revision →
set of issues) and `lastIssue`. -/
structure ParserState where
  issues : List (String × List Issue)
  lastIssue : Option Issue
deriving DecidableEq

/-- A freshly constructed `Parser`: `self._issues = dict()`. -/
def ParserState.empty : ParserState := ⟨[], Option.none⟩

/-- The `while issue in self._issues[revision]: issue.index += 1` loop of
`Parser.add_issue`.  The fuel `|s| + 1` always suffices: each stored
member can block at most the one index value recorded in its own hash
tuple, so among `|s| + 1` candidate indices one is free. -/
def addIndexLoop : Nat → List Issue → Issue → Issue
  | 0, _, issue => issue
  | fuel + 1, s, issue =>
    if pyMem issue s then
      addIndexLoop fuel s { issue with index := issue.index + 1 }
    else issue

/-- `Parser.add_issue(revision, issue)`: create the revision's set if
absent, bump `issue.index` while it collides, insert, record
`lastIssue`. -/
def Parser.add_issue (st : ParserState) (revision : String) (issue : Issue) :
    ParserState :=
  let s := (lookupRev st.issues revision).getD []
  let issue := addIndexLoop (s.length + 1) s issue
  { issues := setRev st.issues revision (pySetAdd s issue),
    lastIssue := some issue }

/-- `Parser.get_all_issues(revision)`: a generator over the revision's
set; the `except KeyError` clause makes an unknown revision yield
nothing instead of raising. -/
def Parser.get_all_issues (st : ParserState) (revision : String) :
    List Issue :=
  match lookupRev st.issues revision with
  | some s => s
  | Option.none => []

/-- `Parser.get_diff(older, newer)`: `(newer - older, older - newer)`
under set difference; the bare dict subscripts raise `KeyError` when a
revision was never stored. -/
def Parser.get_diff (st : ParserState) (older newer : String) :
    Except PyErr (List Issue × List Issue) :=
  match lookupRev st.issues older, lookupRev st.issues newer with
  | some issuesO, some issuesN =>
    .ok (pySetDiff issuesN issuesO, pySetDiff issuesO issuesN)
  | _, _ => .error .keyError

/-- A Python value passed as the `line` argument of `Issue.__init__`:
an int, a str, or `None` (standing for any value `int()` rejects with
`TypeError`). -/
inductive PyVal where
  | int (n : Int)
  | str (s : String)
  | none
deriving DecidableEq

/-- Strip leading and trailing whitespace, as `int(str)` does. -/
def stripChars (l : List Char) : List Char :=
  ((l.dropWhile Char.isWhitespace).reverse.dropWhile Char.isWhitespace).reverse

/-- Value of a non-empty digit run. -/
def digitsVal (ds : List Char) : Int :=
  ds.foldl (fun acc c => acc * 10 + ((c.toNat - 48 : Nat) : Int)) 0

/-- Python `int(s)` on a string: optional surrounding whitespace, an
optional sign, then one or more digits; anything else raises
`ValueError` (`Option.none` here). -/
def pyStrToInt (s : String) : Option Int :=
  match stripChars s.toList with
  | [] => Option.none
  | c :: rest =>
    let ds := if c = '+' ∨ c = '-' then rest else c :: rest
    if ds ≠ [] ∧ ds.all Char.isDigit then
      some (if c = '-' then -(digitsVal ds) else digitsVal ds)
    else Option.none

/-- Python `int(x)` on the modelled values. -/
def pyIntCoerce : PyVal → Option Int
  | .int n => some n
  | .str s => pyStrToInt s
  | .none => Option.none

/-- The `category` argument of `Issue.__init__`: either an actual
`Categories` member or any other object (`isinstance` fails). -/
inductive PyCatArg where
  | cat (c : Categories)
  | notCat
deriving DecidableEq

/-- Whether the argument is a `Categories` member. -/
def PyCatArg.isCat : PyCatArg → Bool
  | .cat _ => true
  | .notCat => false

/-- `Issue.__init__(file, line, category, text, custom_hash)`: first the
`isinstance(category, Categories)` check (raising a plain `Exception`),
then `int(line)` (raising `ValueError`/`TypeError` when not coercible);
on success the fields are stored with `index = 0`. -/
def Issue.init (file : String) (line : PyVal) (category : PyCatArg)
    (text : String) (custom_hash : String) : Except PyErr Issue :=
  match category with
  | .notCat => .error .exception
  | .cat c =>
    match line, pyIntCoerce line with
    | _, some n => .ok ⟨file, n, c, text, 0, custom_hash⟩
    | .none, Option.none => .error .typeError
    | _, Option.none => .error .valueError

/-- Split a character list at the first occurrence of `c`; `Option.none`
when `c` does not occur.  Underlies the regex models: a character class
that excludes `c`, matched greedily and followed by a literal `c`,
consumes exactly the text before the first `c`. -/
def breakAtChar (c : Char) : List Char → Option (List Char × List Char)
  | [] => Option.none
  | x :: xs =>
    if x = c then some ([], xs)
    else
      match breakAtChar c xs with
      | some (a, b) => some (x :: a, b)
      | Option.none => Option.none

/-- Split a character list at the last occurrence of `c`. -/
def breakAtLastChar (c : Char) (l : List Char) :
    Option (List Char × List Char) :=
  match breakAtChar c l.reverse with
  | some (a, b) => some (b.reverse, a.reverse)
  | Option.none => Option.none

/-- Python `s[-n:]`: the last `n` characters (the whole list when it is
shorter). -/
def takeLast (n : Nat) (l : List Char) : List Char :=
  l.drop (l.length - n)

/-- Whether a string ends in the given pattern (used only to state the
spec's "file ending in ..." scenario wording). -/
def strEndsIn (s pat : String) : Bool :=
  takeLast pat.toList.length s.toList == pat.toList

/-- The groups of CppCheck's regex
`^\[([^:]+)/([^:/]+):([0-9]+)\]: \(([^)]+)\) (.*)$`. -/
structure CppMatch where
  dir : List Char
  file : List Char
  lineDigits : List Char
  cat : List Char
  text : List Char
deriving DecidableEq

/-- Matching semantics of CppCheck's regex.  `([^:]+)` and `([^:/]+)`
both exclude `:`, so the literal `:` the pair consumes is the first
colon of the input; within that pre-colon segment the greedy first group
backtracks to the last `/`.  `([0-9]+)` is a maximal digit run that must
be followed by the literal `]: (`; `([^)]+)` runs to the first `)`,
which must be followed by a space; `(.*)` takes the rest. -/
def cppRegexMatch (s : List Char) : Option CppMatch :=
  match s with
  | '[' :: rest => do
    let (p, afterColon) ← breakAtChar ':' rest
    let (g1, g2) ← breakAtLastChar '/' p
    guard (g1 ≠ [] ∧ g2 ≠ [])
    let (digits, rest2) := afterColon.span Char.isDigit
    guard (digits ≠ [])
    match rest2 with
    | ']' :: ':' :: ' ' :: '(' :: rest3 => do
      let (g4, rest4) ← breakAtChar ')' rest3
      guard (g4 ≠ [])
      match rest4 with
      | ' ' :: g5 => some ⟨g1, g2, digits, g4, g5⟩
      | _ => Option.none
    | _ => Option.none
  | _ => Option.none

/-- `CppCheck.get_category`: `"style"` → STYLE, anything else → ERROR. -/
def CppCheck.get_category (s : String) : Categories :=
  if s == "style" then Categories.STYLE else Categories.ERROR

/-- `CppCheck.parse(line)`.  The leading `line[0] != '['` test (with its
IndexError on an empty line) is subsumed by the regex model's demand for
a leading `[`; a failed match (`matches.group` on `None`) and any other
error are swallowed by the bare `except`, giving `None`.  On a match,
the mkfs filter drops lines whose DIR group does not end in `"mkfs"`
(`[-4:]`), and the Issue is built with `file = DIR group + FILE group`
(concatenated with no separator, exactly as in the source). -/
def CppCheck.parse (mkfsOnly : Bool) (line : String) : Option Issue :=
  match cppRegexMatch line.toList with
  | Option.none => Option.none
  | some m =>
    if mkfsOnly && !(takeLast 4 m.dir == "mkfs".toList) then Option.none
    else
      match Issue.init (String.mk (m.dir ++ m.file))
          (.str (String.mk m.lineDigits))
          (.cat (CppCheck.get_category (String.mk m.cat)))
          (String.mk m.text) "" with
      | .ok i => some i
      | .error _ => Option.none

/-- The groups of Clang's diagnostic regexes; `flag` is present for the
first regex (with the trailing `[flag]`) and absent for the second. -/
structure ClangMatch where
  dir : List Char
  file : List Char
  lineDigits : List Char
  colDigits : List Char
  kind : List Char
  text : List Char
  flag : Option (List Char)
deriving DecidableEq

/-- Matching semantics of the shared prefix
`^([^/]+)/([^:]+):([0-9]+):([0-9]+): ([^:]+): ` of Clang's two regexes:
`([^/]+)` runs to the first `/`, `([^:]+)` to the first `:` after it,
each `([0-9]+)` is a maximal digit run followed by the literal `:` (and
a space), and `([^:]+)` runs to the next `:`, which must be followed by
a space.  Returns the five groups and the remaining text. -/
def clangMatchPre (s : List Char) :
    Option (List Char × List Char × List Char × List Char × List Char ×
      List Char) := do
  let (g1, r1) ← breakAtChar '/' s
  guard (g1 ≠ [])
  let (g2, r2) ← breakAtChar ':' r1
  guard (g2 ≠ [])
  let (g3, r3) := r2.span Char.isDigit
  guard (g3 ≠ [])
  match r3 with
  | ':' :: r4 =>
    let (g4, r5) := r4.span Char.isDigit
    guard (g4 ≠ [])
    match r5 with
    | ':' :: ' ' :: r6 => do
      let (g5, r7) ← breakAtChar ':' r6
      guard (g5 ≠ [])
      match r7 with
      | ' ' :: rest => some (g1, g2, g3, g4, g5, rest)
      | _ => Option.none
    | _ => Option.none
  | _ => Option.none

/-- Matching semantics of the tail `(.+) \[([^][]+)\]$` of Clang's first
regex: the input must end in `]`; the flag is the text after the last
`[`, which must be non-empty, bracket-free, and preceded by a space;
the greedy `(.+)` (everything before that ` [`) must be non-empty. -/
def clangFlagSplit (rest : List Char) : Option (List Char × List Char) :=
  match rest.reverse with
  | ']' :: body => do
    let (revFlag, afterBracket) ← breakAtChar '[' body
    guard (revFlag ≠ [] ∧ !(revFlag.contains ']'))
    match afterBracket with
    | ' ' :: revText => do
      guard (revText ≠ [])
      some (revText.reverse, revFlag.reverse)
    | _ => Option.none
  | _ => Option.none

/-- Clang's `self.re1` (with the trailing bracketed flag). -/
def clangMatch1 (s : List Char) : Option ClangMatch := do
  let (g1, g2, g3, g4, g5, rest) ← clangMatchPre s
  let (text, flag) ← clangFlagSplit rest
  some ⟨g1, g2, g3, g4, g5, text, some flag⟩

/-- Clang's `self.re2` (no flag; `(.+)$` takes the non-empty rest). -/
def clangMatch2 (s : List Char) : Option ClangMatch := do
  let (g1, g2, g3, g4, g5, rest) ← clangMatchPre s
  guard (rest ≠ [])
  some ⟨g1, g2, g3, g4, g5, rest, Option.none⟩

/-- The warning-flag → category dict of `Clang.get_issue_type`. -/
def clangFlagDict : List (String × Categories) :=
  [("-Wdiscarded-qualifiers", .STYLE),
   ("-Wshadow", .STYLE),
   ("-Wunused-parameter", .STYLE),
   ("-Wpointer-arith", .STYLE),
   ("-Wunused-but-set-variable", .STYLE),
   ("-Wstrict-prototypes", .STYLE),
   ("-Wempty-body", .STYLE),
   ("-Wmissing-field-initializers", .STYLE),
   ("-Wtype-limits", .STYLE),
   ("-Wshift-negative-value", .STYLE),
   ("-Wsign-compare", .STYLE),
   ("-Wincompatible-pointer-types-discards-qualifiers", .STYLE),
   ("-Wcast-align", .STYLE),
   ("-Wformat-nonliteral", .STYLE),
   ("-Wfloat-equal", .ERROR)]

/-- `Clang.get_issue_type`: a match without the flag group raises
`IndexError`, caught to yield UNKNOWN; a flag present but absent from
the dict prints a diagnostic and yields UNKNOWN. -/
def Clang.get_issue_type (m : ClangMatch) : Categories :=
  match m.flag with
  | Option.none => Categories.UNKNOWN
  | some f =>
    match clangFlagDict.lookup (String.mk f) with
    | some c => c
    | Option.none => Categories.UNKNOWN

/-- First match of `f` over a list of lines (`None` when exhausted). -/
def firstSome (f : String → Option ClangMatch) : List String →
    Option ClangMatch
  | [] => Option.none
  | x :: xs =>
    match f x with
    | some m => some m
    | Option.none => firstSome f xs

/-- `Clang.parse_buffer`: scan buffered lines from index 1 (index 0 is
always skipped) with `re1`; on reaching the end (IndexError) rescan,
again from index 1, with `re2`; exhausting both scans raises IndexError
(only the first scan's is caught inside `parse_buffer`; the second
propagates to `parse`).  A match outside directory `"mkfs"` (exact
comparison here) yields `None` under the mkfs filter; otherwise the
Issue is built with `file = DIR + '/' + FILE`. -/
def Clang.parse_buffer (mkfsOnly : Bool) (buf : List String) :
    Except PyErr (Option Issue) :=
  let m? :=
    match firstSome (fun l => clangMatch1 l.toList) (buf.drop 1) with
    | some m => some m
    | Option.none => firstSome (fun l => clangMatch2 l.toList) (buf.drop 1)
  match m? with
  | Option.none => .error .indexError
  | some m =>
    if mkfsOnly && !(m.dir == "mkfs".toList) then .ok Option.none
    else
      match Issue.init (String.mk (m.dir ++ '/' :: m.file))
          (.str (String.mk m.lineDigits))
          (.cat (Clang.get_issue_type m))
          (String.mk m.text) "" with
      | .ok i => .ok (some i)
      | .error e => .error e

/-- `Clang.parse(line)` for a single instance, state = the buffer: the
two header sentinels are discarded, a non-empty line is appended to the
buffer, an empty line flushes the buffer through `parse_buffer`
(IndexError from an unmatchable or too-short buffer is caught and gives
`None`; the buffer is cleared either way).  The `self.parsed` counter is
dead state and is omitted. -/
def Clang.parse (mkfsOnly : Bool) (buf : List String) (line : String) :
    Except PyErr (List String × Option Issue) :=
  if line == "CURRENT DEFECTS" || line == "===============" then
    .ok (buf, Option.none)
  else if line.length ≠ 0 then .ok (buf ++ [line], Option.none)
  else
    match Clang.parse_buffer mkfsOnly buf with
    | .ok i? => .ok ([], i?)
    | .error .indexError => .ok ([], Option.none)
    | .error e => .error e

/-- One record of the `events` array in Coverity's JSON document. -/
structure CovEvent where
  main : Bool
  filePathname : String
  lineNumber : Int
  eventDescription : String
deriving DecidableEq

/-- One record of the `issues` array in Coverity's JSON document
(`issueKinds` abbreviates `checkerProperties.issueKinds`). -/
structure CovIssue where
  mergeKey : String
  issueKinds : List String
  events : List CovEvent
deriving DecidableEq

/-- `Coverity.get_type`: the last entry of `issueKinds` (`[-1]`, an
IndexError on an empty list); QUALITY → STYLE, SECURITY → SECURITY,
else UNKNOWN. -/
def Coverity.get_type (issue : CovIssue) : Except PyErr Categories :=
  match issue.issueKinds.getLast? with
  | Option.none => .error .indexError
  | some kind =>
    .ok (if kind == "QUALITY" then Categories.STYLE
      else if kind == "SECURITY" then Categories.SECURITY
      else Categories.UNKNOWN)

/-- The `for event in issue['events']: if event['main']: main = event`
loop: the last event flagged `main` wins, `None` when there is none. -/
def covFindMain (events : List CovEvent) : Option CovEvent :=
  events.foldl (fun main event => if event.main then some event else main)
    Option.none

/-- Python `str.split(sep)` for a one-character separator. -/
def splitCharList (c : Char) : List Char → List (List Char)
  | [] => [[]]
  | x :: xs =>
    let r := splitCharList c xs
    if x = c then [] :: r
    else
      match r with
      | h :: t => (x :: h) :: t
      | [] => [[x]]

/-- Python `s.split('/')`. -/
def pySplitSlash (s : String) : List String :=
  (splitCharList '/' s.toList).map String.mk

/-- Python `l[-2:]`. -/
def pyLastTwoStr (l : List String) : List String :=
  l.drop (l.length - 2)

/-- Python `os.path.join(d, f)` for the two-argument case. -/
def pyPathJoin (d f : String) : String :=
  match f.toList with
  | '/' :: _ => f
  | _ =>
    if d == "" then f
    else
      match d.toList.reverse with
      | '/' :: _ => d ++ f
      | _ => d ++ "/" ++ f

/-- Python `d[-4:]` on a string. -/
def pyTakeLast4 (s : String) : String := String.mk (takeLast 4 s.toList)

/-- The body of `Coverity.run`'s loop for a single JSON issue record:
pick the main event (`main['filePathname']` on `None` raises TypeError),
take the last two path components (`d, f = ...` unpacking a singleton
raises ValueError), skip records whose directory does not end in
`"mkfs"` (`d[-4:]`), classify, and add the Issue with
`custom_hash = mergeKey`. -/
def Coverity.runOne (mkfsOnly : Bool) (st : ParserState) (revision : String)
    (issue : CovIssue) : Except PyErr ParserState :=
  match covFindMain issue.events with
  | Option.none => .error .typeError
  | some main =>
    match pyLastTwoStr (pySplitSlash main.filePathname) with
    | [d, f] =>
      if mkfsOnly && !(pyTakeLast4 d == "mkfs") then .ok st
      else do
        let category ← Coverity.get_type issue
        match Issue.init (pyPathJoin d f) (.int main.lineNumber)
            (.cat category) main.eventDescription issue.mergeKey with
        | .ok i => .ok (Parser.add_issue st revision i)
        | .error e => .error e
    | _ => .error .valueError

/-- `Coverity.run(revision)` over an already-decoded JSON document (file
and JSON I/O are external to the core): fold `runOne` over the `issues`
array, propagating the first exception. -/
def Coverity.run (mkfsOnly : Bool) (st : ParserState) (revision : String) :
    List CovIssue → Except PyErr ParserState
  | [] => .ok st
  | issue :: rest => do
    let st' ← Coverity.runOne mkfsOnly st revision issue
    Coverity.run mkfsOnly st' revision rest

/-- The observable state of TWO coexisting multi-line parser instances
A and B of the same class.  `_buffer = []` in the source is a CLASS
attribute: an instance reads the class-level list until its own first
flush assigns `self._buffer = []`, which creates an instance attribute.
`classBuf` is the shared class-level list; `aBuf`/`bBuf` are the
instance attributes, absent (`Option.none`) until that first flush. -/
structure ClangPair where
  classBuf : List String
  aBuf : Option (List String)
  bBuf : Option (List String)
deriving DecidableEq

/-- Two freshly constructed instances: no instance attribute yet, the
class-level buffer empty. -/
def ClangPair.initial : ClangPair := ⟨[], Option.none, Option.none⟩

/-- `Clang.parse(line)` invoked on instance A of the pair.
`self._buffer.append(line)` mutates in place whichever list the
attribute lookup found — the shared class-level list when A has no
instance attribute yet; `self._buffer = []` on a flush rebinds only A's
instance attribute and leaves the class-level list untouched. -/
def clangPairParseA (mkfsOnly : Bool) (st : ClangPair) (line : String) :
    ClangPair × Option Issue :=
  let buf := st.aBuf.getD st.classBuf
  if line == "CURRENT DEFECTS" || line == "===============" then
    (st, Option.none)
  else if line.length ≠ 0 then
    (match st.aBuf with
     | Option.none => { st with classBuf := st.classBuf ++ [line] }
     | some b => { st with aBuf := some (b ++ [line]) },
     Option.none)
  else
    match Clang.parse_buffer mkfsOnly buf with
    | .ok i? => ({ st with aBuf := some [] }, i?)
    | .error _ => ({ st with aBuf := some [] }, Option.none)

/-- `Clang.parse(line)` invoked on instance B of the pair (symmetric to
`clangPairParseA`). -/
def clangPairParseB (mkfsOnly : Bool) (st : ClangPair) (line : String) :
    ClangPair × Option Issue :=
  let buf := st.bBuf.getD st.classBuf
  if line == "CURRENT DEFECTS" || line == "===============" then
    (st, Option.none)
  else if line.length ≠ 0 then
    (match st.bBuf with
     | Option.none => { st with classBuf := st.classBuf ++ [line] }
     | some b => { st with bBuf := some (b ++ [line]) },
     Option.none)
  else
    match Clang.parse_buffer mkfsOnly buf with
    | .ok i? => ({ st with bBuf := some [] }, i?)
    | .error _ => ({ st with bBuf := some [] }, Option.none)

/-- An apostrophe character, used to spell the scenario inputs. -/
def apos : String := String.mk [Char.ofNat 39]

/-- The single-line scenario input
`[mkfs/xfs_mkfs.c:120]: (style) variable 'x' not used`. -/
def cppLineC5 : String :=
  "[mkfs/xfs_mkfs.c:120]: (style) variable " ++ apos ++ "x" ++ apos
    ++ " not used"

/-- Its text group: `variable 'x' not used`. -/
def cppTextC5 : String :=
  "variable " ++ apos ++ "x" ++ apos ++ " not used"

/-- The multi-line scenario's diagnostic line
`mkfs/xfs_mkfs.c:144:40: warning: unused parameter 'log'
[-Wunused-parameter]`. -/
def clangLineC6 : String :=
  "mkfs/xfs_mkfs.c:144:40: warning: unused parameter " ++ apos ++ "log"
    ++ apos ++ " [-Wunused-parameter]"

/-- Its text group: `unused parameter 'log'`. -/
def clangTextC6 : String :=
  "unused parameter " ++ apos ++ "log" ++ apos

/-- Helper for the claims about unknown revisions: updating a key and
then looking it up yields the stored set. -/
theorem lookupRev_setRev (m : List (String × List Issue)) (k : String)
    (v : List Issue) : lookupRev (setRev m k v) k = some v := by
  induction m with
  | nil => simp [setRev, lookupRev]
  | cons hd tl ih =>
    obtain ⟨k', v'⟩ := hd
    by_cases h : k' == k
    · simp [setRev, h, lookupRev]
    · simp only [setRev, h]
      simp only [Bool.false_eq_true, if_false, lookupRev, h, ih]

/-- Whether an `Except` computation succeeded. -/
def exceptIsOk {ε α : Type} : Except ε α → Bool
  | .ok _ => true
  | .error _ => false

/-- The Coverity scenario's JSON record: `mergeKey "K1"`, one `main:
true` event in directory `mkfs`, at the given line number. -/
def covRecC4 (l : Int) : CovIssue :=
  ⟨"K1", ["QUALITY"], [⟨true, "xfsprogs/mkfs/xfs_mkfs.c", l, "null deref"⟩]⟩

/-- The Issue that record yields. -/
def covIssC4 (l : Int) : Issue :=
  ⟨"mkfs/xfs_mkfs.c", l, .STYLE, "null deref", 0, "K1"⟩

/-- Claim C1 — evaluation of `Issue.__eq__` at the failing input: two
issues with empty custom hashes whose `(file, category, text, index)`
tuples differ (different `text`; also, separately, different `index`)
nevertheless compare equal, because the source compares `self.text`
against itself (the slip §9 of the spec flags) and never consults
`index`.  The third conjunct confirms the part of the claim that does
hold: changing only `line` never changes the outcome. -/
theorem claim_C1_code_eval :
    Issue.pyEq ⟨"f.c", 1, .STYLE, "t1", 0, ""⟩ ⟨"f.c", 1, .STYLE, "t2", 0, ""⟩
        = true
    ∧ Issue.pyEq ⟨"f.c", 1, .STYLE, "t", 0, ""⟩ ⟨"f.c", 1, .STYLE, "t", 5, ""⟩
        = true
    ∧ (∀ (a b : Issue) (l : Int),
        Issue.pyEq { a with line := l } b = Issue.pyEq a b)
    ∧ (∀ (a b : Issue) (l : Int),
        Issue.pyEq a { b with line := l } = Issue.pyEq a b) :=
  ⟨by decide, by decide, fun _ _ _ => rfl, fun _ _ _ => rfl⟩

/-- Claim C2: for issues that both carry a non-empty `custom_hash`,
`==` holds exactly when the custom hashes agree, whatever the other
fields are. -/
theorem claim_C2 (a b : Issue) (ha : a.custom_hash ≠ "")
    (hb : b.custom_hash ≠ "") :
    Issue.pyEq a b = true ↔ a.custom_hash = b.custom_hash := by
  simp [Issue.pyEq, ha, hb]

/-- Witness for C2 at a concrete input: same key `"K"`, every other
field different. -/
theorem claim_C2_witness :
    (Issue.pyEq ⟨"a.c", 1, .STYLE, "t", 0, "K"⟩
        ⟨"b.c", 2, .ERROR, "u", 0, "K"⟩ = true
      ↔ ("K" : String) = "K") :=
  claim_C2 ⟨"a.c", 1, .STYLE, "t", 0, "K"⟩ ⟨"b.c", 2, .ERROR, "u", 0, "K"⟩
    (by decide) (by decide)

/-- Claim C3: adding two freshly constructed issues with identical
`(file, category, text)`, empty custom hash and initial index 0 to the
same revision stores two distinct entries with indices 0 and 1, both
returned by `get_all_issues`. -/
theorem claim_C3 (f t : String) (c : Categories) (l1 l2 : Int) :
    Parser.get_all_issues
        (Parser.add_issue
          (Parser.add_issue ParserState.empty "rev" ⟨f, l1, c, t, 0, ""⟩)
          "rev" ⟨f, l2, c, t, 0, ""⟩) "rev"
      = [⟨f, l1, c, t, 0, ""⟩, ⟨f, l2, c, t, 1, ""⟩] := by
  simp [Parser.add_issue, Parser.get_all_issues, lookupRev, setRev,
    ParserState.empty, addIndexLoop, pyMem, pySetAdd, pyHashEq, Issue.pyEq]

/-- Claim C4: the tree-structured (Coverity) parser, run on a record
with `mergeKey "K1"` and a single `main: true` event in directory
`mkfs`, stores exactly one Issue with `custom_hash = "K1"` per
revision; running a second revision identical except for the line
number makes `get_diff` report the issue in neither `added` nor
`removed` (line is in neither the hash tuple nor `__eq__`, and the
merge keys agree). -/
theorem claim_C4 (l1 l2 : Int) (h : l1 ≠ l2) :
    Coverity.run true ParserState.empty "r1" [covRecC4 l1]
        = .ok ⟨[("r1", [covIssC4 l1])], some (covIssC4 l1)⟩
    ∧ Coverity.run true ⟨[("r1", [covIssC4 l1])], some (covIssC4 l1)⟩ "r2"
          [covRecC4 l2]
        = .ok ⟨[("r1", [covIssC4 l1]), ("r2", [covIssC4 l2])],
            some (covIssC4 l2)⟩
    ∧ Parser.get_all_issues
          ⟨[("r1", [covIssC4 l1]), ("r2", [covIssC4 l2])],
            some (covIssC4 l2)⟩ "r1"
        = [covIssC4 l1]
    ∧ Parser.get_all_issues
          ⟨[("r1", [covIssC4 l1]), ("r2", [covIssC4 l2])],
            some (covIssC4 l2)⟩ "r2"
        = [covIssC4 l2]
    ∧ Parser.get_diff
          ⟨[("r1", [covIssC4 l1]), ("r2", [covIssC4 l2])],
            some (covIssC4 l2)⟩ "r1" "r2"
        = .ok ([], []) :=
  ⟨rfl, rfl, rfl, rfl, rfl⟩

/-- Witness for C4 at line numbers 100 and 200. -/
theorem claim_C4_witness :
    (100 : Int) ≠ 200
    ∧ Parser.get_diff
          ⟨[("r1", [covIssC4 100]), ("r2", [covIssC4 200])],
            some (covIssC4 200)⟩ "r1" "r2"
        = .ok ([], []) :=
  ⟨by decide, (claim_C4 100 200 (by decide)).2.2.2.2⟩

/-- Claim C5 — evaluation of `CppCheck.parse` at the scenario input
`[mkfs/xfs_mkfs.c:120]: (style) variable 'x' not used` with the mkfs
filter on: line 120 and category STYLE come out as the claim states,
but the stored file is `"mkfsxfs_mkfs.c"` — the source concatenates the
DIR and FILE regex groups with no `/` between them — so the file does
NOT end in `"mkfs/xfs_mkfs.c"`. -/
theorem claim_C5_code_eval :
    CppCheck.parse true cppLineC5
        = some ⟨"mkfsxfs_mkfs.c", 120, .STYLE, cppTextC5, 0, ""⟩
    ∧ strEndsIn "mkfsxfs_mkfs.c" "mkfs/xfs_mkfs.c" = false :=
  ⟨rfl, rfl⟩

/-- Claim C6: the multi-line (Clang/GCC) parser, from an empty buffer,
buffers `"note: in expansion"` and the warning line returning `None`
both times, and emits the single Issue — file `mkfs/xfs_mkfs.c`, line
144, STYLE — only on the call that consumes the terminating blank
line. -/
theorem claim_C6 :
    Clang.parse true [] "note: in expansion"
        = .ok (["note: in expansion"], Option.none)
    ∧ Clang.parse true ["note: in expansion"] clangLineC6
        = .ok (["note: in expansion", clangLineC6], Option.none)
    ∧ Clang.parse true ["note: in expansion", clangLineC6] ""
        = .ok ([], some ⟨"mkfs/xfs_mkfs.c", 144, .STYLE, clangTextC6, 0, ""⟩) :=
  ⟨rfl, rfl, rfl⟩

/-- Claim C7 — evaluation at the failing input: with two freshly
constructed multi-line parser instances A and B, `B.parse("")` returns
`None` when A has done nothing, but returns the Issue built from A's
buffered lines after A parsed the two scenario lines — B reads the
class-level `_buffer` list that A's `append` mutated, so the instances
are not independent. -/
theorem claim_C7_code_eval :
    (clangPairParseB true ClangPair.initial "").2 = Option.none
    ∧ (clangPairParseB true
          (clangPairParseA true
            ((clangPairParseA true ClangPair.initial "note: in expansion").1)
            clangLineC6).1 "").2
        = some ⟨"mkfs/xfs_mkfs.c", 144, .STYLE, clangTextC6, 0, ""⟩ :=
  ⟨rfl, rfl⟩

/-- Claim C8: `get_all_issues` on a revision never stored yields the
empty sequence without raising, and is indistinguishable from the same
revision stored with an empty set. -/
theorem claim_C8 (st : ParserState) (rev : String)
    (h : lookupRev st.issues rev = Option.none) :
    Parser.get_all_issues st rev = []
    ∧ Parser.get_all_issues st rev
        = Parser.get_all_issues ⟨setRev st.issues rev [], st.lastIssue⟩ rev := by
  constructor
  · simp [Parser.get_all_issues, h]
  · simp [Parser.get_all_issues, h, lookupRev_setRev]

/-- Witness for C8: a fresh parser and an unknown revision `"r"`. -/
theorem claim_C8_witness :
    Parser.get_all_issues ParserState.empty "r" = []
    ∧ Parser.get_all_issues ParserState.empty "r"
        = Parser.get_all_issues
            ⟨setRev ParserState.empty.issues "r" [],
              ParserState.empty.lastIssue⟩ "r" :=
  claim_C8 ParserState.empty "r" rfl

/-- Claim C9: `Issue.__init__` succeeds exactly when the category is a
`Categories` member and the line argument is coercible to an integer
(otherwise it raises — the validation failure the spec's taxonomy calls
`ValidationError`); on success the coerced integer is stored as `line`
and `index` starts at 0. -/
theorem claim_C9 (f t h : String) (l : PyVal) (c : PyCatArg) :
    exceptIsOk (Issue.init f l c t h) = (c.isCat && (pyIntCoerce l).isSome)
    ∧ (∀ cc n, c = PyCatArg.cat cc → pyIntCoerce l = some n →
        Issue.init f l c t h = .ok ⟨f, n, cc, t, 0, h⟩) := by
  constructor
  · cases c with
    | notCat => simp [Issue.init, PyCatArg.isCat, exceptIsOk]
    | cat cc =>
      cases hl : pyIntCoerce l with
      | none =>
        cases l <;> simp_all [Issue.init, PyCatArg.isCat, exceptIsOk, pyIntCoerce]
      | some n =>
        cases l <;> simp_all [Issue.init, PyCatArg.isCat, exceptIsOk, pyIntCoerce]
  · intro cc n hc hn
    subst hc
    cases l <;> simp_all [Issue.init, pyIntCoerce]

/-- Witness for C9: a valid category and the numeric string `" 12 "`
construct an Issue with `line = 12`. -/
theorem claim_C9_witness :
    Issue.init "a.c" (.str " 12 ") (.cat .ERROR) "txt" ""
      = .ok ⟨"a.c", 12, .ERROR, "txt", 0, ""⟩ :=
  (claim_C9 "a.c" "txt" "" (.str " 12 ") (.cat .ERROR)).2 .ERROR 12 rfl rfl

/-- Claim C10 (implicit): the hash is not a function of `__eq__` — two
issues with the same non-empty custom hash but different text compare
equal yet hash differently, as do two equal issues differing only in
`index`; consequently membership, `set.add` and set difference are
decided by the (hash, eq) pair: the "equal" issue is not a member of
the singleton set, is added alongside it, and survives the set
difference. -/
theorem claim_C10 :
    Issue.pyEq ⟨"f1.c", 1, .STYLE, "t1", 0, "K"⟩
        ⟨"f2.c", 2, .ERROR, "t2", 0, "K"⟩ = true
    ∧ pyHashEq ⟨"f1.c", 1, .STYLE, "t1", 0, "K"⟩
        ⟨"f2.c", 2, .ERROR, "t2", 0, "K"⟩ = false
    ∧ pyMem ⟨"f1.c", 1, .STYLE, "t1", 0, "K"⟩
        [⟨"f2.c", 2, .ERROR, "t2", 0, "K"⟩] = false
    ∧ pySetAdd [⟨"f2.c", 2, .ERROR, "t2", 0, "K"⟩]
        ⟨"f1.c", 1, .STYLE, "t1", 0, "K"⟩
        = [⟨"f2.c", 2, .ERROR, "t2", 0, "K"⟩,
           ⟨"f1.c", 1, .STYLE, "t1", 0, "K"⟩]
    ∧ pySetDiff [⟨"f1.c", 1, .STYLE, "t1", 0, "K"⟩]
        [⟨"f2.c", 2, .ERROR, "t2", 0, "K"⟩]
        = [⟨"f1.c", 1, .STYLE, "t1", 0, "K"⟩]
    ∧ Issue.pyEq ⟨"f.c", 1, .STYLE, "t", 0, ""⟩
        ⟨"f.c", 1, .STYLE, "t", 5, ""⟩ = true
    ∧ pyHashEq ⟨"f.c", 1, .STYLE, "t", 0, ""⟩
        ⟨"f.c", 1, .STYLE, "t", 5, ""⟩ = false := by
  decide
